import Mathlib

/-!
Verification of the MONROE json-to-Cassandra importer
(src/importer/monroe_dbimporter.py).

The embedding models the pure data flow of the importer.  External
collaborators are abstracted exactly at the boundary where the source calls
them:

* `json.loads` becomes an abstract decoder `Loads : String → Option JValue`
  (returning `none` when the buffer is not yet a complete value, which in the
  source raises `ValueError`);
* the Cassandra session, `os.rename` and `os.stat` become boolean fields of a
  `FileEnv` describing one file's surroundings (its size, its physical lines,
  and whether the sink write and the two renames succeed);
* `os.walk` becomes a recursive traversal of an explicit directory tree.

Python exceptions are modelled with `Except String`: a `.error` value is an
exception propagating out of the modelled code.
-/

/-- A JSON value as produced by `json.loads`.  Only the object shape matters
to the importer (`create_batch` reads `j['DataId']` and the key/value lists);
the other constructors make non-object decodes representable. -/
inductive JValue where
  | obj : List (String × JValue) → JValue
  | arr : List JValue → JValue
  | str : String → JValue
  | num : Int → JValue
  | boolean : Bool → JValue
  | null : JValue

/-- The abstract `json.loads` collaborator: `some v` when the accumulated
buffer decodes as a complete JSON value, `none` when decoding raises
`ValueError` (incomplete or malformed buffer). -/
abbrev Loads := String → Option JValue

/-- ','.join over a list of strings (source lines 47-48). -/
def commaJoin : List String → String
  | [] => ""
  | [x] => x
  | x :: y :: xs => x ++ "," ++ commaJoin (y :: xs)

/-- Model of `str.replace('.', '_')` applied to the DataId field
(source line 106): every '.' character becomes '_'. -/
def replaceDot (s : String) : String :=
  String.mk (s.data.map (fun c => if c = '.' then '_' else c))

/-- Model of `os.path.basename` (posix): the suffix after the last '/'. -/
def basename (p : String) : String :=
  String.mk (p.data.foldl (fun acc c => if c = '/' then [] else acc ++ [c]) [])

/-- `get_cql` (source lines 42-52): builds the INSERT statement string from the
record's keys, with one positional placeholder per value, and returns the
statement together with the record's values. -/
def get_cql (j : List (String × JValue)) (tablename : String) :
    String × List JValue :=
  ("INSERT INTO " ++ tablename ++ " (" ++ commaJoin (j.map Prod.fst) ++
     ") VALUES (" ++ commaJoin (j.map (fun _ => "%s")) ++ ")",
   j.map Prod.snd)

/--
The body of the `while True` loop of `parse_json` (source lines 71-87),
together with the outer `for line in f` loop.  `buf` is the accumulated
`line`, `flag` is the current value of `each_json_on_single_line`, and `rest`
holds the lines not yet consumed from the file iterator.

* a successful `json.loads` appends the value and breaks to the next outer
  iteration, which resets `flag` to `true` (source line 70: the reset happens
  inside the `for` loop, once per new record);
* a failed decode appends the next physical line and retries with
  `flag := false`;
* a failed decode at end of file raises the "Parse Error" exception.

The returned Bool is the final value of `each_json_on_single_line`.  The
definition is split on the state of the file iterator (no further line /
at least one further line); inside each case the decode attempt on the
accumulated buffer is the first step, as in the source.
-/
def parseFrom (loads : Loads) : String → Bool → List String →
    Except String (List JValue × Bool)
  | buf, flag, [] =>
    match loads buf with
    | some j => Except.ok ([j], flag)
    | none => Except.error "Parse Error"
  | buf, _flag, l :: ls =>
    match loads buf with
    | some j =>
      match parseFrom loads l true ls with
      | Except.error e => Except.error e
      | Except.ok (js, fl) => Except.ok (j :: js, fl)
    | none => parseFrom loads (buf ++ l) false ls

/-- `parse_json` (source lines 55-93) on the file's physical lines.  On an
empty stream the `for` loop body never runs, so the subsequent
`if (not each_json_on_single_line)` reads a local variable that was never
assigned and the function raises (UnboundLocalError). -/
def parse_json (loads : Loads) (lines : List String) :
    Except String (List JValue × Bool) :=
  match lines with
  | [] => Except.error "UnboundLocalError: each_json_on_single_line"
  | l :: ls => parseFrom loads l true ls

/-- Whether the advisory warning of source lines 89-92 is emitted for a parse
result: it fires when the final value of `each_json_on_single_line` is false. -/
def multiline_advisory (r : Except String (List JValue × Bool)) : Bool :=
  match r with
  | Except.ok (_, single) => !single
  | Except.error _ => false

/-- One batch: the list of (statement string, positional values) pairs added
by `batch.add` (source lines 113-114). -/
abbrev Batch := List (String × List JValue)

/-- The body of the `for j in json_store` loop of `create_batch` (source lines
105-114) for one record: `j['DataId']` raises KeyError when the key is absent
and TypeError when `j` is not a dict; `.replace` raises AttributeError when
the DataId value is not a string; otherwise the CQL insert is built. -/
def batch_row (j : JValue) : Except String (String × List JValue) :=
  match j with
  | JValue.obj fields =>
    match List.lookup "DataId" fields with
    | some (JValue.str s) => Except.ok (get_cql fields (replaceDot s))
    | some _ => Except.error "AttributeError: replace"
    | none => Except.error "KeyError: DataId"
  | _ => Except.error "TypeError: not a dict"

/-- `create_batch` (source lines 96-117): one insert per record, in order,
counting the inserts; the first failing record aborts the whole batch with
its exception. -/
def create_batch (json_store : List JValue) : Except String (Nat × Batch) :=
  match json_store with
  | [] => Except.ok (0, [])
  | j :: rest =>
    match batch_row j with
    | Except.error e => Except.error e
    | Except.ok row =>
      match create_batch rest with
      | Except.error e => Except.error e
      | Except.ok (n, b) => Except.ok (n + 1, row :: b)

/-- The environment of one `handle_file` call: the file plus the behaviour of
the external filesystem and sink at that moment.  `size` is `os.stat(...)
.st_size`, `lines` the physical lines the open file yields, `sinkOk` whether
`session.execute(batch)` succeeds, and the two rename fields whether the
corresponding `os.rename` calls succeed. -/
structure FileEnv where
  filename : String
  size : Nat
  lines : List String
  sinkOk : Bool
  renameToProcessedOk : Bool
  renameToFailedOk : Bool

/-- The observable outcome of one `handle_file` call that returned normally:
its return value, whether the file was opened and parsed, the batches the
sink confirmed, the renames performed, and the operator-facing log/print
messages of the error handler. -/
structure FileOutcome where
  ret : Nat
  openedFile : Bool
  committedBatches : List Batch
  moves : List (String × String)
  logs : List String

/-- The `try` block of `handle_file` (source lines 127-153).  An `error`
carries the exception text together with the batches the sink had already
confirmed when it was raised (committed data is not rolled back by the
exception). -/
def handle_try (loads : Loads) (processed_dir : String) (session : Bool)
    (env : FileEnv) : Except (String × List Batch) FileOutcome :=
  if env.size = 0 then Except.error ("Zero file size", [])
  else
    match parse_json loads env.lines with
    | Except.error e => Except.error (e, [])
    | Except.ok (json_store, _each_single) =>
      match create_batch json_store with
      | Except.error e => Except.error (e, [])
      | Except.ok (inserts, batch) =>
        if session then
          if env.sinkOk then
            if env.renameToProcessedOk then
              Except.ok { ret := inserts, openedFile := true,
                          committedBatches := [batch],
                          moves := [(env.filename,
                                     processed_dir ++ basename env.filename)],
                          logs := [] }
            else Except.error ("OSError: rename", [batch])
          else Except.error ("WriteError", [])
        else
          Except.ok { ret := inserts, openedFile := true,
                      committedBatches := [], moves := [], logs := [] }

/-- `handle_file` (source lines 120-168).  The `except Exception` handler
(lines 156-168) computes `dest_path = failed_dir + basename`, logs the
generic message, moves the file there when a session exists, and returns 0.
The `os.rename` inside the handler is itself unprotected: when it raises, the
exception leaves `handle_file`. -/
def handle_file (loads : Loads) (failed_dir processed_dir : String)
    (session : Bool) (env : FileEnv) : Except String FileOutcome :=
  match handle_try loads processed_dir session env with
  | Except.ok out => Except.ok out
  | Except.error (e, committed) =>
    let dest := failed_dir ++ basename env.filename
    let log_str := e ++ " in file " ++ env.filename ++ " moving to " ++ dest
    if session then
      if env.renameToFailedOk then
        Except.ok { ret := 0, openedFile := env.size != 0,
                    committedBatches := committed,
                    moves := [(env.filename, dest)], logs := [log_str] }
      else Except.error "OSError: rename to failed"
    else
      Except.ok { ret := 0, openedFile := env.size != 0,
                  committedBatches := committed, moves := [],
                  logs := [log_str] }

/-- True when an `Except` value returned normally. -/
def exceptOk {e a : Type} : Except e a → Bool
  | Except.ok _ => true
  | Except.error _ => false

mutual
/-- A directory: its name, its plain files, and its subdirectories. -/
inductive DirTree where
  | node (dirname : String) (files : List String) (subdirs : DirForest)
/-- A list of sibling directories. -/
inductive DirForest where
  | nil : DirForest
  | cons : DirTree → DirForest → DirForest
end

/-- The directory's own name. -/
def dname : DirTree → String
  | DirTree.node n _ _ => n

/-- Model of posix `os.path.join` for the shapes the importer uses. -/
def joinPath (a b : String) : String :=
  if b.data.head? = some '/' then b
  else if a = "" then b
  else if a.data.getLastD ' ' = '/' then a ++ b
  else a ++ "/" ++ b

/-- `fnmatch.filter(files, '*.json')` membership: the name ends in ".json". -/
def matchesJson (name : String) : Bool :=
  name.data.reverse.take 5 = ".json".data.reverse

mutual
/-- The `os.walk(in_dir, topdown=True)` loop of `schedule_workers` (source
lines 185-191): at each directory, yield the '*.json' files joined onto the
current path, then descend into the subdirectories that survive the in-place
pruning `dirs[:] = [d for d in dirs if os.path.join(in_dir, d) not in
exclude]` — note the source joins the pruning candidate onto `in_dir`, not
onto the current root. -/
def walk_tree (in_dir : String) (exclude : List String) (path : String) :
    DirTree → List String
  | DirTree.node _ files subdirs =>
    ((files.filter matchesJson).map (fun f => joinPath path f)) ++
      walk_forest in_dir exclude path subdirs
/-- Walks the subdirectory list, skipping pruned entries. -/
def walk_forest (in_dir : String) (exclude : List String) (path : String) :
    DirForest → List String
  | DirForest.nil => []
  | DirForest.cons d ds =>
    (if exclude.contains (joinPath in_dir (dname d)) then []
     else walk_tree in_dir exclude (joinPath path (dname d)) d) ++
      walk_forest in_dir exclude path ds
end

/-- The file paths `schedule_workers` dispatches to the pool, with
`exclude = set([processed_dir, failed_dir])` (source line 184). -/
def schedule_workers_files (in_dir failed_dir processed_dir : String)
    (tree : DirTree) : List String :=
  walk_tree in_dir [processed_dir, failed_dir] in_dir tree

/-- The aggregate counters of `schedule_workers` (source lines 202-205):
`file_count`, `insert_count = sum(results)`, and
`failed_count = len([e for e in results if e == 0])`. -/
def schedule_workers_counts (results : List Nat) : Nat × Nat × Nat :=
  (results.length, results.sum, (results.filter (fun e => e == 0)).length)

/-- The failed/processed directory defaulting of `parse_special_args` (source
lines 331-340): an absent (or empty, by Python truthiness) command line value
defaults to `indir + "/failed/"` resp. `indir + "/processed/"`. -/
def parse_special_args_dirs (indir : String)
    (failedArg processedArg : Option String) : String × String :=
  ((match failedArg with
    | some f => if f = "" then indir ++ "/failed/" else f
    | none => indir ++ "/failed/"),
   (match processedArg with
    | some p => if p = "" then indir ++ "/processed/" else p
    | none => indir ++ "/processed/"))

/-!
Concrete fixtures.  `loadsFix` instantiates the abstract `json.loads` on the
handful of strings used in concrete evaluations; it agrees with Python's
`json.loads` on each of them (the listed strings decode, every other string
occurring below — in particular the lone first physical line of the pretty
printed object — raises ValueError).
-/

/-- First physical line of a pretty printed JSON object (incomplete). -/
def jsonA : String := "\x7b\"a\":\n"

/-- The same object completed by its second physical line. -/
def jsonAB : String := "\x7b\"a\":\n1\x7d\n"

/-- A single-line JSON object. -/
def jsonB : String := "\x7b\"b\":2\x7d\n"

/-- A single-line JSON object lacking the DataId field. -/
def jsonX : String := "\x7b\"x\":1\x7d\n"

/-- A single-line JSON object carrying a DataId field. -/
def jsonD : String := "\x7b\"DataId\":\"a.b\",\"x\":7\x7d\n"

/-- The record decoded from `jsonD`. -/
def objD : JValue := JValue.obj [("DataId", JValue.str "a.b"), ("x", JValue.num 7)]

/-- Concrete decoder used in witnesses and counterexamples. -/
def loadsFix : Loads := fun s =>
  if s = jsonAB then some (JValue.obj [("a", JValue.num 1)])
  else if s = jsonB then some (JValue.obj [("b", JValue.num 2)])
  else if s = jsonX then some (JValue.obj [("x", JValue.num 1)])
  else if s = jsonD then some objD
  else none

/-- The batch row built from `objD`. -/
def rowD : String × List JValue :=
  ("INSERT INTO a_b (DataId,x) VALUES (%s,%s)",
   [JValue.str "a.b", JValue.num 7])

/-- A zero-byte file in an environment where every filesystem call succeeds. -/
def envZero : FileEnv :=
  { filename := "/indir/z.json", size := 0, lines := [], sinkOk := true,
    renameToProcessedOk := true, renameToFailedOk := true }

/-- A zero-byte file whose rename into the failed directory fails. -/
def envZeroBad : FileEnv := { envZero with renameToFailedOk := false }

/-- A file whose single record lacks the DataId field. -/
def envNoId : FileEnv :=
  { filename := "/indir/x.json", size := 8, lines := [jsonX], sinkOk := true,
    renameToProcessedOk := true, renameToFailedOk := true }

/-- A healthy file in a healthy environment. -/
def envGood : FileEnv :=
  { filename := "/indir/d.json", size := 24, lines := [jsonD], sinkOk := true,
    renameToProcessedOk := true, renameToFailedOk := true }

/-- The healthy file, but the rename into the processed directory fails
after the batch was committed. -/
def envRenameFail : FileEnv := { envGood with renameToProcessedOk := false }

/-- The healthy file, but the sink write fails. -/
def envWriteFail : FileEnv := { envGood with sinkOk := false }

/-- The healthy file discovered at path a/x.json. -/
def envGoodA : FileEnv := { envGood with filename := "a/x.json" }

/-- The healthy file discovered at path b/x.json. -/
def envGoodB : FileEnv := { envGood with filename := "b/x.json" }

/-- The input tree of the C1 evaluation: the failed and the processed
directory sit directly under the scanned root and the failed one holds one
json file. -/
def c1_tree : DirTree :=
  DirTree.node "indir" [] (DirForest.cons (DirTree.node "failed" ["a.json"] DirForest.nil)
    (DirForest.cons (DirTree.node "processed" [] DirForest.nil) DirForest.nil))

/-!
Helper lemmas about the parser, the batch builder and `handle_file`.
-/

/-- Every outer loop iteration of `parse_json` appends at least one record,
so a parse that returns normally on a non-empty stream returns a non-empty
record list. -/
theorem parseFrom_ok_ne_nil (loads : Loads) :
    ∀ (rest : List String) (buf : String) (flag : Bool) (js : List JValue)
      (fl : Bool), parseFrom loads buf flag rest = Except.ok (js, fl) →
      js ≠ [] := by
  intro rest
  induction rest with
  | nil =>
    intro buf flag js fl h
    simp only [parseFrom] at h
    cases hl : loads buf with
    | some j =>
      rw [hl] at h
      simp only [Except.ok.injEq, Prod.mk.injEq] at h
      rw [← h.1]
      simp
    | none => rw [hl] at h; simp at h
  | cons l ls ih =>
    intro buf flag js fl h
    simp only [parseFrom] at h
    cases hl : loads buf with
    | some j =>
      rw [hl] at h
      cases hrec : parseFrom loads l true ls with
      | error e => rw [hrec] at h; simp at h
      | ok p =>
        obtain ⟨js', fl'⟩ := p
        rw [hrec] at h
        have h2 : (Except.ok (j :: js', fl') :
            Except String (List JValue × Bool)) = Except.ok (js, fl) := h
        simp only [Except.ok.injEq, Prod.mk.injEq] at h2
        rw [← h2.1]
        simp
    | none =>
      rw [hl] at h
      exact ih (buf ++ l) false js fl h

/-- When the current buffer decodes and every remaining line decodes on its
own, the parse returns exactly one record per line, in order, and the
single-line flag stays true. -/
theorem parseFrom_all_single (loads : Loads) :
    ∀ (rest : List String) (buf : String) (j : JValue),
      loads buf = some j → (∀ l ∈ rest, (loads l).isSome) →
      parseFrom loads buf true rest =
        Except.ok (j :: rest.map (fun l => (loads l).getD JValue.null),
          true) := by
  intro rest
  induction rest with
  | nil =>
    intro buf j hb _
    simp only [parseFrom]
    rw [hb]
    simp
  | cons l ls ih =>
    intro buf j hb hall
    have hl : (loads l).isSome := hall l (List.mem_cons_self l ls)
    obtain ⟨jl, hjl⟩ := Option.isSome_iff_exists.mp hl
    have hrec := ih l jl hjl (fun x hx => hall x (List.mem_cons_of_mem l hx))
    simp only [parseFrom]
    rw [hb, hrec]
    simp [hjl]

/-- `create_batch` counts exactly one insert per record. -/
theorem create_batch_ok_length :
    ∀ (rs : List JValue) (n : Nat) (b : Batch),
      create_batch rs = Except.ok (n, b) → n = rs.length := by
  intro rs
  induction rs with
  | nil =>
    intro n b h
    simp only [create_batch, Except.ok.injEq, Prod.mk.injEq] at h
    rw [← h.1]
    simp
  | cons j rest ih =>
    intro n b h
    simp only [create_batch] at h
    cases hrow : batch_row j with
    | error e => rw [hrow] at h; simp at h
    | ok row =>
      rw [hrow] at h
      cases hrec : create_batch rest with
      | error e => rw [hrec] at h; simp at h
      | ok p =>
        obtain ⟨m, bb⟩ := p
        rw [hrec] at h
        have h2 : (Except.ok (m + 1, row :: bb) :
            Except String (Nat × Batch)) = Except.ok (n, b) := h
        simp only [Except.ok.injEq, Prod.mk.injEq] at h2
        rw [← h2.1, ih m bb hrec]
        simp

/-- A record that is an object without the DataId key makes `create_batch`
raise. -/
theorem create_batch_missing_id :
    ∀ (rs : List JValue),
      (∃ j ∈ rs, ∃ fields, j = JValue.obj fields ∧
        List.lookup "DataId" fields = none) →
      ∃ e, create_batch rs = Except.error e := by
  intro rs
  induction rs with
  | nil =>
    intro h
    obtain ⟨j, hj, _⟩ := h
    simp at hj
  | cons a tl ih =>
    intro h
    obtain ⟨j, hj, fields, hobj, hlook⟩ := h
    rcases List.mem_cons.mp hj with heq | hmem
    · subst heq
      subst hobj
      refine ⟨"KeyError: DataId", ?_⟩
      simp only [create_batch, batch_row]
      rw [hlook]
    · cases hrow : batch_row a with
      | error e =>
        refine ⟨e, ?_⟩
        simp only [create_batch]
        rw [hrow]
      | ok row =>
        obtain ⟨e, he⟩ := ih ⟨j, hmem, fields, hobj, hlook⟩
        refine ⟨e, ?_⟩
        simp only [create_batch]
        rw [hrow, he]

/-- Evaluation of `handle_file` on the success path: a non-empty file that
parses, batches, writes and relocates cleanly returns the insert count and
moves the file to `processed_dir + basename`. -/
theorem handle_file_success (loads : Loads) (fdir pdir : String)
    (env : FileEnv) (rs : List JValue) (fl : Bool) (n : Nat) (b : Batch)
    (hsz : env.size ≠ 0) (hp : parse_json loads env.lines = Except.ok (rs, fl))
    (hb : create_batch rs = Except.ok (n, b)) (hs : env.sinkOk = true)
    (hr : env.renameToProcessedOk = true) :
    handle_file loads fdir pdir true env =
      Except.ok { ret := n, openedFile := true, committedBatches := [b],
                  moves := [(env.filename, pdir ++ basename env.filename)],
                  logs := [] } := by
  have ht : handle_try loads pdir true env =
      Except.ok { ret := n, openedFile := true, committedBatches := [b],
                  moves := [(env.filename, pdir ++ basename env.filename)],
                  logs := [] } := by
    unfold handle_try
    rw [if_neg hsz]
    simp only [hp, hb, hs, hr]
    simp
  unfold handle_file
  rw [ht]

/-- Evaluation of `handle_file` when the `try` block raised and the rename
into the failed directory succeeds: the error is caught, the file moves to
`failed_dir + basename`, the generic log line is emitted and 0 is returned. -/
theorem handle_file_caught (loads : Loads) (fdir pdir : String)
    (env : FileEnv) (e : String) (c : List Batch)
    (ht : handle_try loads pdir true env = Except.error (e, c))
    (hf : env.renameToFailedOk = true) :
    handle_file loads fdir pdir true env =
      Except.ok { ret := 0, openedFile := env.size != 0,
                  committedBatches := c,
                  moves := [(env.filename, fdir ++ basename env.filename)],
                  logs := [e ++ " in file " ++ env.filename ++
                             " moving to " ++
                             (fdir ++ basename env.filename)] } := by
  unfold handle_file
  rw [ht]
  simp only [hf]
  simp

/-- A zero-size file makes the `try` block raise before opening the file. -/
theorem handle_try_size_zero (loads : Loads) (pdir : String) (session : Bool)
    (env : FileEnv) (h0 : env.size = 0) :
    handle_try loads pdir session env =
      Except.error ("Zero file size", []) := by
  unfold handle_try
  rw [if_pos h0]

/-- A raising parse makes the `try` block raise with nothing committed. -/
theorem handle_try_parse_error (loads : Loads) (pdir : String)
    (session : Bool) (env : FileEnv) (e : String) (hsz : env.size ≠ 0)
    (hp : parse_json loads env.lines = Except.error e) :
    handle_try loads pdir session env = Except.error (e, []) := by
  unfold handle_try
  rw [if_neg hsz]
  simp only [hp]

/-- A raising `create_batch` makes the `try` block raise with nothing
committed: no batch ever reaches the sink. -/
theorem handle_try_batch_error (loads : Loads) (pdir : String)
    (session : Bool) (env : FileEnv) (rs : List JValue) (fl : Bool)
    (e : String) (hsz : env.size ≠ 0)
    (hp : parse_json loads env.lines = Except.ok (rs, fl))
    (hb : create_batch rs = Except.error e) :
    handle_try loads pdir session env = Except.error (e, []) := by
  unfold handle_try
  rw [if_neg hsz]
  simp only [hp, hb]

/-- When the sink confirmed the batch but the rename into the processed
directory raises, the `try` block raises with the batch already committed. -/
theorem handle_try_rename_error (loads : Loads) (pdir : String)
    (env : FileEnv) (rs : List JValue) (fl : Bool) (n : Nat) (b : Batch)
    (hsz : env.size ≠ 0)
    (hp : parse_json loads env.lines = Except.ok (rs, fl))
    (hb : create_batch rs = Except.ok (n, b)) (hs : env.sinkOk = true)
    (hr : env.renameToProcessedOk = false) :
    handle_try loads pdir true env =
      Except.error ("OSError: rename", [b]) := by
  unfold handle_try
  rw [if_neg hsz]
  simp only [hp, hb, hs, hr]
  simp

/-- A list of results splits into its zero entries and its non-zero
entries. -/
theorem length_filter_zero_split :
    ∀ (results : List Nat),
      results.length = (results.filter (fun e => e == 0)).length +
        (results.filter (fun e => e != 0)).length := by
  intro results
  induction results with
  | nil => rfl
  | cons a tl ih =>
    by_cases h : a = 0
    · subst h
      simp only [List.filter_cons]
      simp [ih]
      omega
    · simp only [List.filter_cons]
      simp [h, ih]
      omega

/-!
The claims.
-/

/-- C1: evaluation of the Directory Scanner at the default configuration.
`parse_special_args` defaults the failed directory to `indir + "/failed/"`
(trailing slash), but the pruning in `schedule_workers` compares it against
`os.path.join(in_dir, d)`, which never carries a trailing slash, so with the
default directories the failed directory IS walked and its json file IS
yielded (first two conjuncts).  The third conjunct shows the same tree with
slash-free exclusion paths, where pruning works: the trailing slash of the
defaults is exactly what defeats the exclusion the source comments ask for. -/
theorem c1_default_failed_dir_is_walked :
    parse_special_args_dirs "/indir" none none =
      ("/indir/failed/", "/indir/processed/") ∧
    schedule_workers_files "/indir" "/indir/failed/" "/indir/processed/"
      c1_tree = ["/indir/failed/" ++ "a.json"] ∧
    schedule_workers_files "/indir" "/indir/failed" "/indir/processed"
      c1_tree = [] := by
  refine ⟨rfl, rfl, rfl⟩

/-- C2, counterexample: an exception CAN propagate out of `handle_file`.
On a zero-byte file whose rename into the failed directory itself raises,
the unprotected `os.rename` inside the `except` handler (source line 164)
lets the exception escape to the pool. -/
theorem c2_rename_failure_escapes :
    handle_file loadsFix "/indir/failed/" "/indir/processed/" true envZeroBad
      = Except.error "OSError: rename to failed" := rfl

/-- C2, amended: whenever the relocation of the file into the failed
directory succeeds, every error raised while processing the file is caught
by the `except Exception` handler and `handle_file` returns normally (with
the failure outcome 0 on the error path), so nothing propagates to
`schedule_workers`. -/
theorem c2_errors_caught_when_failed_move_succeeds (loads : Loads)
    (fdir pdir : String) (session : Bool) (env : FileEnv)
    (hf : env.renameToFailedOk = true) :
    exceptOk (handle_file loads fdir pdir session env) = true := by
  unfold handle_file
  cases ht : handle_try loads pdir session env with
  | ok out => rfl
  | error p =>
    obtain ⟨e, c⟩ := p
    cases session with
    | false => rfl
    | true => simp only [hf]; rfl

/-- C2, witness for the amended theorem at a concrete input. -/
theorem c2_witness :
    exceptOk (handle_file loadsFix "/indir/failed/" "/indir/processed/"
      true envZero) = true :=
  c2_errors_caught_when_failed_move_succeeds loadsFix "/indir/failed/"
    "/indir/processed/" true envZero rfl

/-- C4: evaluation of the Record Parser at a file whose FIRST record spans
two physical lines and whose LAST record is single-line.  Because
`each_json_on_single_line` is (re)initialised to True inside the `for` loop
(source line 70), the flag only reflects the last record: the parse returns
both records but the final flag is `true`, so the multi-line advisory is NOT
emitted although a record required more than one physical line — refuting
the claimed "if and only if at least one record" behaviour. -/
theorem c4_advisory_only_reflects_last_record :
    parse_json loadsFix [jsonA, "1\x7d\n", jsonB] =
      Except.ok ([JValue.obj [("a", JValue.num 1)],
                  JValue.obj [("b", JValue.num 2)]], true) ∧
    multiline_advisory (parse_json loadsFix [jsonA, "1\x7d\n", jsonB]) =
      false := ⟨rfl, rfl⟩

/-- C7, counterexample: on an empty stream (a file with N = 0 objects) the
parser does not return an empty record list — it raises, because the
advisory flag local variable is referenced after the `for` loop without ever
having been assigned. -/
theorem c7_empty_stream_raises :
    parse_json loadsFix [] =
      Except.error "UnboundLocalError: each_json_on_single_line" := rfl

/-- C7, amended: for every input file with at least one line, each line
decoding on its own as one JSON object, `parse_json` returns exactly one
record per line, in file order (and the single-line flag stays true). -/
theorem c7_single_line_objects_parsed_in_order (loads : Loads)
    (lines : List String) (h0 : lines ≠ [])
    (h : ∀ l ∈ lines, (loads l).isSome) :
    parse_json loads lines =
      Except.ok (lines.map (fun l => (loads l).getD JValue.null), true) := by
  cases lines with
  | nil => exact absurd rfl h0
  | cons l ls =>
    have hl : (loads l).isSome := h l (List.mem_cons_self l ls)
    obtain ⟨j, hj⟩ := Option.isSome_iff_exists.mp hl
    have hall := parseFrom_all_single loads ls l j hj
      (fun x hx => h x (List.mem_cons_of_mem l hx))
    simp only [parse_json]
    rw [hall]
    simp [hj]

/-- C7, witness for the amended theorem: a two-line file with one
single-line object per line yields exactly those two records in order. -/
theorem c7_witness :
    parse_json loadsFix [jsonB, jsonD] =
      Except.ok ([JValue.obj [("b", JValue.num 2)], objD], true) := by
  have h := c7_single_line_objects_parsed_in_order loadsFix [jsonB, jsonD]
    (by simp) (by intro l hl; simp at hl; rcases hl with rfl | rfl <;> rfl)
  simpa using h

/-- C3, counterexample: a failed move to the processed directory after a
committed write is NOT surfaced distinctly.  On the same healthy file, the
rename-after-commit failure and a sink write failure produce the same
outcome shape through the same generic `except` path: return 0 and a move
into the failed directory, with the generic log template (only the embedded
error text differs).  The two cases even differ in what matters — in the
first the batch WAS committed, in the second it was not — yet the reporting
is identical. -/
theorem c3_rename_after_commit_not_distinct :
    handle_file loadsFix "/indir/failed/" "/indir/processed/" true
        envRenameFail =
      Except.ok { ret := 0, openedFile := true, committedBatches := [[rowD]],
                  moves := [("/indir/d.json", "/indir/failed/d.json")],
                  logs := ["OSError: rename in file /indir/d.json moving to /indir/failed/d.json"] } ∧
    handle_file loadsFix "/indir/failed/" "/indir/processed/" true
        envWriteFail =
      Except.ok { ret := 0, openedFile := true, committedBatches := [],
                  moves := [("/indir/d.json", "/indir/failed/d.json")],
                  logs := ["WriteError in file /indir/d.json moving to /indir/failed/d.json"] } := ⟨rfl, rfl⟩

/-- C3, amended: when the move to the processed directory fails after the
sink committed the batch, `handle_file` handles it through the same generic
per-file error path as any other failure: the file is moved to the failed
directory, 0 is returned and the generic log template is emitted — no
distinct committed-but-not-relocated condition exists, although the batch
remains committed. -/
theorem c3_rename_after_commit_generic_path (loads : Loads)
    (fdir pdir : String) (env : FileEnv) (rs : List JValue) (fl : Bool)
    (n : Nat) (b : Batch) (hsz : env.size ≠ 0)
    (hp : parse_json loads env.lines = Except.ok (rs, fl))
    (hb : create_batch rs = Except.ok (n, b)) (hs : env.sinkOk = true)
    (hr : env.renameToProcessedOk = false)
    (hf : env.renameToFailedOk = true) :
    handle_file loads fdir pdir true env =
      Except.ok { ret := 0, openedFile := env.size != 0,
                  committedBatches := [b],
                  moves := [(env.filename, fdir ++ basename env.filename)],
                  logs := ["OSError: rename" ++ " in file " ++ env.filename ++
                             " moving to " ++
                             (fdir ++ basename env.filename)] } :=
  handle_file_caught loads fdir pdir env "OSError: rename" [b]
    (handle_try_rename_error loads pdir env rs fl n b hsz hp hb hs hr) hf

/-- C3, witness for the amended theorem at a concrete input. -/
theorem c3_witness :
    handle_file loadsFix "/indir/failed/" "/indir/processed/" true
        envRenameFail =
      Except.ok { ret := 0, openedFile := true, committedBatches := [[rowD]],
                  moves := [("/indir/d.json", "/indir/failed/d.json")],
                  logs := ["OSError: rename in file /indir/d.json moving to /indir/failed/d.json"] } :=
  c3_rename_after_commit_generic_path loadsFix "/indir/failed/"
    "/indir/processed/" envRenameFail [objD] true 1 [rowD]
    (by decide) rfl rfl rfl rfl rfl

/-- C5: per-file processing is all-or-nothing.  If the parse raises (e.g.
the stream ends inside an incomplete JSON fragment) or some parsed record is
an object without the DataId field, then — provided the move into the failed
directory succeeds — `handle_file` commits nothing to the sink, returns 0,
and relocates the file into the failed directory. -/
theorem c5_all_or_nothing (loads : Loads) (fdir pdir : String)
    (env : FileEnv) (hf : env.renameToFailedOk = true)
    (h : (∃ e, parse_json loads env.lines = Except.error e) ∨
         (∃ rs fl, parse_json loads env.lines = Except.ok (rs, fl) ∧
            ∃ j ∈ rs, ∃ fields, j = JValue.obj fields ∧
              List.lookup "DataId" fields = none)) :
    ∃ out, handle_file loads fdir pdir true env = Except.ok out ∧
      out.ret = 0 ∧ out.committedBatches = [] ∧
      out.moves = [(env.filename, fdir ++ basename env.filename)] := by
  by_cases hsz : env.size = 0
  · exact ⟨_, handle_file_caught loads fdir pdir env "Zero file size" []
      (handle_try_size_zero loads pdir true env hsz) hf, rfl, rfl, rfl⟩
  · rcases h with ⟨e, hp⟩ | ⟨rs, fl, hp, hmiss⟩
    · exact ⟨_, handle_file_caught loads fdir pdir env e []
        (handle_try_parse_error loads pdir true env e hsz hp) hf,
        rfl, rfl, rfl⟩
    · obtain ⟨e, he⟩ := create_batch_missing_id rs hmiss
      exact ⟨_, handle_file_caught loads fdir pdir env e []
        (handle_try_batch_error loads pdir true env rs fl e hsz hp he) hf,
        rfl, rfl, rfl⟩

/-- C5, witness: a file whose single record lacks DataId commits nothing,
returns 0 and is moved to the failed directory. -/
theorem c5_witness :
    ∃ out, handle_file loadsFix "/indir/failed/" "/indir/processed/" true
        envNoId = Except.ok out ∧
      out.ret = 0 ∧ out.committedBatches = [] ∧
      out.moves = [("/indir/x.json", "/indir/failed/x.json")] :=
  c5_all_or_nothing loadsFix "/indir/failed/" "/indir/processed/" envNoId rfl
    (Or.inr ⟨[JValue.obj [("x", JValue.num 1)]], true, rfl,
      JValue.obj [("x", JValue.num 1)], by simp,
      [("x", JValue.num 1)], rfl, rfl⟩)

/-- C6: for records carrying a string DataId, `create_batch` builds exactly
one insert per record, in record order, returning the insert count; each
insert's table name is the DataId with '.' replaced by '_', its column list
is exactly the record's field names in the record's field order, and its
positional values are exactly the record's field values in the same order
(the i-th column name and the i-th value both come from the record's i-th
field, so they correspond as matched pairs). -/
theorem c6_create_batch_builds_inserts
    (rs : List (List (String × JValue) × String))
    (h : ∀ p ∈ rs, List.lookup "DataId" p.1 = some (JValue.str p.2)) :
    create_batch (rs.map (fun p => JValue.obj p.1)) =
      Except.ok (rs.length, rs.map (fun p =>
        ("INSERT INTO " ++ replaceDot p.2 ++ " (" ++
           commaJoin (p.1.map Prod.fst) ++ ") VALUES (" ++
           commaJoin (p.1.map (fun _ => "%s")) ++ ")",
         p.1.map Prod.snd))) := by
  revert h
  induction rs with
  | nil => intro _; rfl
  | cons p tl ih =>
    intro h
    have hp := h p (List.mem_cons_self p tl)
    have htl := ih (fun q hq => h q (List.mem_cons_of_mem p hq))
    simp only [List.map_cons, create_batch, batch_row, hp, htl, get_cql]
    simp

/-- C6, witness at a concrete record. -/
theorem c6_witness :
    create_batch [objD] = Except.ok (1, [rowD]) := by
  have h := c6_create_batch_builds_inserts
    [([("DataId", JValue.str "a.b"), ("x", JValue.num 7)], "a.b")]
    (by intro p hp; simp at hp; subst hp; rfl)
  simpa using h

/-- C8: a zero-byte file (with a live session) is rejected before the file
is even opened: no parse happens, nothing is committed to the sink, the file
is moved to the failed directory, 0 is returned, and that 0 contributes 0 to
the insert count and 1 to the failed-file count of `schedule_workers`. -/
theorem c8_zero_byte_rejected (loads : Loads) (fdir pdir : String)
    (env : FileEnv) (h0 : env.size = 0) (hf : env.renameToFailedOk = true) :
    ∃ out, handle_file loads fdir pdir true env = Except.ok out ∧
      out.ret = 0 ∧ out.openedFile = false ∧ out.committedBatches = [] ∧
      out.moves = [(env.filename, fdir ++ basename env.filename)] ∧
      (schedule_workers_counts [out.ret]).2.1 = 0 ∧
      (schedule_workers_counts [out.ret]).2.2 = 1 := by
  refine ⟨_, handle_file_caught loads fdir pdir env "Zero file size" []
    (handle_try_size_zero loads pdir true env h0) hf,
    rfl, ?_, rfl, rfl, rfl, rfl⟩
  simp [h0]

/-- C8, witness at a concrete zero-byte file. -/
theorem c8_witness :
    ∃ out, handle_file loadsFix "/indir/failed/" "/indir/processed/" true
        envZero = Except.ok out ∧
      out.ret = 0 ∧ out.openedFile = false ∧ out.committedBatches = [] ∧
      out.moves = [("/indir/z.json", "/indir/failed/z.json")] ∧
      (schedule_workers_counts [out.ret]).2.1 = 0 ∧
      (schedule_workers_counts [out.ret]).2.2 = 1 :=
  c8_zero_byte_rejected loadsFix "/indir/failed/" "/indir/processed/"
    envZero rfl rfl

/-- C9: the relocation destination computed by `handle_file` is the
destination directory string concatenated with the file's basename only
(source lines 148 and 157), so two discovered files with equal basenames get
the identical destination path in the processed directory, and the second
`os.rename` lands on the path of the first. -/
theorem c9_destination_basename_collision (loads : Loads)
    (fdir pdir : String) (envA envB : FileEnv)
    (rsA rsB : List JValue) (flA flB : Bool) (nA nB : Nat) (bA bB : Batch)
    (hszA : envA.size ≠ 0)
    (hpA : parse_json loads envA.lines = Except.ok (rsA, flA))
    (hbA : create_batch rsA = Except.ok (nA, bA)) (hsA : envA.sinkOk = true)
    (hrA : envA.renameToProcessedOk = true)
    (hszB : envB.size ≠ 0)
    (hpB : parse_json loads envB.lines = Except.ok (rsB, flB))
    (hbB : create_batch rsB = Except.ok (nB, bB)) (hsB : envB.sinkOk = true)
    (hrB : envB.renameToProcessedOk = true)
    (hbase : basename envA.filename = basename envB.filename) :
    ∃ outA outB,
      handle_file loads fdir pdir true envA = Except.ok outA ∧
      handle_file loads fdir pdir true envB = Except.ok outB ∧
      outA.moves.map Prod.snd = [pdir ++ basename envA.filename] ∧
      outB.moves.map Prod.snd = [pdir ++ basename envB.filename] ∧
      outA.moves.map Prod.snd = outB.moves.map Prod.snd := by
  refine ⟨_, _,
    handle_file_success loads fdir pdir envA rsA flA nA bA hszA hpA hbA hsA
      hrA,
    handle_file_success loads fdir pdir envB rsB flB nB bB hszB hpB hbB hsB
      hrB, rfl, rfl, ?_⟩
  simp [hbase]

/-- C9, witness: two distinct paths a/x.json and b/x.json with the same
basename are both relocated to the same processed destination. -/
theorem c9_witness :
    ("a/x.json" : String) ≠ "b/x.json" ∧
    basename "a/x.json" = basename "b/x.json" ∧
    ∃ outA outB,
      handle_file loadsFix "/indir/failed/" "/indir/processed/" true
        envGoodA = Except.ok outA ∧
      handle_file loadsFix "/indir/failed/" "/indir/processed/" true
        envGoodB = Except.ok outB ∧
      outA.moves.map Prod.snd = ["/indir/processed/x.json"] ∧
      outB.moves.map Prod.snd = ["/indir/processed/x.json"] ∧
      outA.moves.map Prod.snd = outB.moves.map Prod.snd := by
  refine ⟨by decide, rfl, ?_⟩
  exact c9_destination_basename_collision loadsFix "/indir/failed/"
    "/indir/processed/" envGoodA envGoodB [objD] [objD] true true 1 1
    [rowD] [rowD] (by decide) rfl rfl rfl rfl (by decide) rfl rfl rfl rfl
    rfl

/-- C10: a `handle_file` call that takes the success path on a file with at
least one physical line returns a strictly positive record count (the parse
of a non-empty stream returns a non-empty record list and `create_batch`
counts one insert per record); and for any result list, `schedule_workers`'
`file_count` is exactly its `failed_count` (the number of zero results) plus
the number of non-zero (successful) results. -/
theorem c10_success_positive_and_counts :
    (∀ (loads : Loads) (fdir pdir : String) (env : FileEnv)
       (rs : List JValue) (fl : Bool) (n : Nat) (b : Batch),
       env.lines ≠ [] → env.size ≠ 0 →
       parse_json loads env.lines = Except.ok (rs, fl) →
       create_batch rs = Except.ok (n, b) → env.sinkOk = true →
       env.renameToProcessedOk = true →
       ∃ out, handle_file loads fdir pdir true env = Except.ok out ∧
         0 < out.ret) ∧
    (∀ results : List Nat,
      (schedule_workers_counts results).1 =
        (schedule_workers_counts results).2.2 +
          (results.filter (fun e => e != 0)).length) := by
  constructor
  · intro loads fdir pdir env rs fl n b hne hsz hp hb hs hr
    refine ⟨_, handle_file_success loads fdir pdir env rs fl n b hsz hp hb
      hs hr, ?_⟩
    have hrs : rs ≠ [] := by
      cases hl : env.lines with
      | nil => exact absurd hl hne
      | cons l ls =>
        rw [hl] at hp
        simp only [parse_json] at hp
        exact parseFrom_ok_ne_nil loads ls l true rs fl hp
    have hn : n = rs.length := create_batch_ok_length rs n b hb
    show 0 < n
    rw [hn]
    exact List.length_pos.mpr hrs
  · intro results
    exact length_filter_zero_split results

/-- C10, witness: the healthy file returns a positive count, and the count
identity holds on a concrete result list. -/
theorem c10_witness :
    (∃ out, handle_file loadsFix "/indir/failed/" "/indir/processed/" true
        envGood = Except.ok out ∧ 0 < out.ret) ∧
    (schedule_workers_counts [3, 0, 2]).1 =
      (schedule_workers_counts [3, 0, 2]).2.2 +
        (([3, 0, 2] : List Nat).filter (fun e => e != 0)).length :=
  ⟨c10_success_positive_and_counts.1 loadsFix "/indir/failed/"
      "/indir/processed/" envGood [objD] true 1 [rowD] (by decide)
      (by decide) rfl rfl rfl rfl,
   c10_success_positive_and_counts.2 [3, 0, 2]⟩
